import Mathlib

/-!
# Verification of the Farmer-Market request handlers

A shallow embedding of `src/main.py` and `src/config.py`: Mongo documents
become association lists of BSON-like values, Flask form/file inputs become
explicit parameters, and each request handler becomes a pure function from
the relevant store state and inputs to the updated state plus an outcome
(flash messages, redirect/render target, session assignments).
-/

/-- A BSON-like value as stored in the Mongo collections: strings, nulls,
booleans, integers (`int(...)` results), scaled decimals (`float(...)`
results, as mantissa/scale), timestamps (`datetime` values, as an abstract
tick count), ObjectIds (by their 24-hex-char string form), and nested
sub-documents. -/
inductive BVal where
  | vStr : String → BVal
  | vNull : BVal
  | vBool : Bool → BVal
  | vInt : Int → BVal
  | vNum : Int → Nat → BVal
  | vTime : Nat → BVal
  | vId : String → BVal
  | vDoc : List (String × BVal) → BVal

open BVal

/-- A Mongo document / Python dict: an association list from field names to
values, first binding wins on lookup. -/
abbrev Document := List (String × BVal)

/-- Field lookup in a document (`d[k]` / `d.get(k)`). -/
def getField : Document → String → Option BVal
  | [], _ => none
  | p :: rest, k => if p.1 = k then some p.2 else getField rest k

/-- Field assignment `d[k] = v` (also the effect of a Mongo `$set` on one
key): replaces the first binding of `k` in place, or appends a new binding. -/
def setField : Document → String → BVal → Document
  | [], k, v => [(k, v)]
  | p :: rest, k, v => if p.1 = k then (k, v) :: rest else p :: setField rest k v

/-- Apply a `$set` update document: set every listed field in order. -/
def applySet (d : Document) (upd : List (String × BVal)) : Document :=
  upd.foldl (fun acc p => setField acc p.1 p.2) d

theorem getField_setField_self (d : Document) (k : String) (v : BVal) :
    getField (setField d k v) k = some v := by
  induction d with
  | nil => simp [setField, getField]
  | cons p rest ih =>
    by_cases h : p.1 = k <;> simp [setField, getField, h, ih]

theorem getField_setField_ne (d : Document) (k k' : String) (v : BVal)
    (h : k' ≠ k) : getField (setField d k v) k' = getField d k' := by
  induction d with
  | nil =>
    have h1 : ¬ (k = k') := fun e => h e.symm
    simp [setField, getField, h1]
  | cons p rest ih =>
    by_cases hp : p.1 = k
    · have h1 : ¬ (k = k') := fun e => h e.symm
      have h2 : ¬ (p.1 = k') := fun e => h1 (hp.symm.trans e)
      simp [setField, getField, hp, h1, h2]
    · by_cases hp' : p.1 = k'
      · have h1 : ¬ (k' = k) := h
        simp [setField, getField, hp, hp', h1]
      · simp [setField, getField, hp, hp', ih]

/-- `request.form`: submitted field names with their string values. -/
abbrev Form := List (String × String)

/-- `request.form.get(k)`: `some` value when the field was submitted,
`none` when absent. -/
def fget : Form → String → Option String
  | [], _ => none
  | p :: rest, k => if p.1 = k then some p.2 else fget rest k

/-- `k in request.form`. -/
def fhas (f : Form) (k : String) : Bool := (fget f k).isSome

/-- `request.form.to_dict()` as a document of string values. -/
def formToDoc (f : Form) : Document := f.map (fun p => (p.1, vStr p.2))

theorem getField_formToDoc (f : Form) (k : String) :
    getField (formToDoc f) k = (fget f k).map vStr := by
  induction f with
  | nil => simp [formToDoc, getField, fget]
  | cons p rest ih =>
    simp only [formToDoc, List.map_cons] at ih ⊢
    by_cases h : p.1 = k <;> simp [getField, fget, h, ih]

/-! ## Configuration (`src/config.py`)

`Config` defines `SECRET_KEY`, `MONGO_URI`, `UPLOAD_FOLDER`,
`ALLOWED_EXTENSIONS` and `MAX_CONTENT_LENGTH` — and nothing else; in
particular it defines no `DEFAULT_IMAGES` entry, although `main.py` reads
`app.config['DEFAULT_IMAGES']`. -/

/-- `Config.ALLOWED_EXTENSIONS = {'png', 'jpg', 'jpeg', 'gif'}`. -/
def ALLOWED_EXTENSIONS : List String := ["png", "jpg", "jpeg", "gif"]

/-- The entries of `app.config` that the `profile` handler reads beyond the
upload machinery. `DEFAULT_IMAGES` is a dict from role key to default image
path when configured, `none` when the key is absent from the config (a read
then raises `KeyError`). -/
structure AppConfig where
  DEFAULT_IMAGES : Option (List (String × String))

/-- `app.config` as populated from `src/config.py`: the `Config` class has
no `DEFAULT_IMAGES` attribute, so the key is absent. -/
def theConfig : AppConfig := { DEFAULT_IMAGES := none }

/-! ## Helper functions (`src/main.py` lines 17-30) -/

/-- `str.lower()` on the ASCII strings handled here. -/
def strToLower (s : String) : String := String.mk (s.data.map Char.toLower)

/-- `'.' in s` for the single-character needle used here. -/
def containsDot (s : String) : Bool := s.data.contains '.'

/-- The substring after the last dot: `s.rsplit('.', 1)[1]` for a string
containing a dot. -/
def extAfterLastDot (s : String) : String :=
  String.mk ((s.data.reverse.takeWhile (fun c => c ≠ '.')).reverse)

/-- `allowed_file` (main.py:17-19): the filename contains a dot and the
lowercased substring after the last dot is in the extension allow-list. -/
def allowed_file (filename : String) : Bool :=
  containsDot filename &&
    ALLOWED_EXTENSIONS.contains (strToLower (extAfterLastDot filename))

/-- Modelled from the spec: `werkzeug.utils.secure_filename` (external
library, not in `src/`) — "a sanitized version of the original name"; we
model it as keeping only ASCII alphanumerics, dots, dashes and underscores. -/
def secure_filename (s : String) : String :=
  String.mk (s.data.filter (fun c =>
    c.isAlpha || c.isDigit || c = '.' || c = '-' || c = '_'))

/-- `s.rsplit('.', 1)[1]`: `some` extension when the string contains a dot,
`none` when the indexing would raise `IndexError`. -/
def rsplitExt (s : String) : Option String :=
  if containsDot s then some (extAfterLastDot s) else none

/-- The string form of a BSON value under Python `str(...)`; only the
rendering of ObjectIds and strings matters to the handlers. -/
def strOfBVal : BVal → String
  | vStr s => s
  | vNull => "None"
  | vBool b => if b then "True" else "False"
  | vInt n => toString n
  | vNum m sc => toString m ++ "e-" ++ toString sc
  | vTime n => toString n
  | vId s => s
  | vDoc _ => "{...}"

/-- Python truthiness of an optional form value: `None` and `''` are falsy. -/
def truthy : Option String → Bool
  | none => false
  | some s => s ≠ ""

/-- Split a character list at every occurrence of a separator character. -/
def splitAux (sep : Char) : List Char → List Char → List String
  | [], acc => [String.mk acc.reverse]
  | x :: xs, acc =>
    if x = sep then String.mk acc.reverse :: splitAux sep xs []
    else splitAux sep xs (x :: acc)

/-- `s.split(sep)` for a single-character separator. -/
def splitOnChar (s : String) (sep : Char) : List String := splitAux sep s.data []

/-- `int(s)` / the digits of `s` as a number: `some` exactly when `s` is a
nonempty all-digit string. -/
def strToNat? (s : String) : Option Nat :=
  if !s.data.isEmpty && s.data.all Char.isDigit then
    some (s.data.foldl (fun n c => n * 10 + (c.toNat - 48)) 0)
  else none

/-! ## Password hashing (werkzeug, modelled)

`generate_password_hash` and `check_password_hash` come from
`werkzeug.security`, which is not part of this repository's sources. -/

/-- Two lowercase hex characters for a character code (low byte). -/
def hexPair (c : Char) : String :=
  String.mk [(Nat.digitChar (c.toNat / 16 % 16)), (Nat.digitChar (c.toNat % 16))]

/-- Hex-encode a character list, two hex characters per character. -/
def hexEncodeL : List Char → String
  | [] => ""
  | c :: cs => hexPair c ++ hexEncodeL cs

/-- Modelled from the spec: the salted digest underlying werkzeug's
password hash (external library, not in `src/`) — a deterministic
hex-string digest of salt and password. -/
def pwDigest (salt password : String) : String := hexEncodeL (salt ++ password).data

/-- Modelled from the spec: `werkzeug.security.generate_password_hash`
(external library, not in `src/`) — produces `method$salt$digest`, a salted
hash of the plaintext, so that the stored password is "hashed", "never
stored in plaintext". -/
def generate_password_hash (salt password : String) : String :=
  "pbkdf2:sha256:600000$" ++ salt ++ "$" ++ pwDigest salt password

/-- Modelled from the spec: `werkzeug.security.check_password_hash`
(external library, not in `src/`) — splits the stored value into
method, salt and digest, recomputes the digest of the submitted password
with the stored salt and compares; malformed stored values verify nothing. -/
def check_password_hash (pwhash password : String) : Bool :=
  match splitOnChar pwhash '$' with
  | [_, salt, digest] => digest == pwDigest salt password
  | _ => false

theorem hexPair_length (c : Char) : (hexPair c).length = 2 := rfl

theorem hexEncodeL_length (cs : List Char) : (hexEncodeL cs).length = 2 * cs.length := by
  induction cs with
  | nil => rfl
  | cons c rest ih =>
    simp [hexEncodeL, String.length_append, hexPair_length, ih]
    omega

/-- The modelled hash is longer than the plaintext, hence never equal to it:
the stored password is never the submitted plaintext. -/
theorem generate_password_hash_ne (salt password : String) :
    generate_password_hash salt password ≠ password := by
  intro h
  have hlen := congrArg String.length h
  rw [generate_password_hash] at hlen
  simp only [String.length_append, hexEncodeL_length, pwDigest] at hlen
  have hd : (salt ++ password).data = salt.data ++ password.data := String.data_append salt password
  have hdl : (salt ++ password).data.length = salt.length + password.length := by
    rw [hd, List.length_append]; rfl
  rw [hdl] at hlen
  have h1 : ("pbkdf2:sha256:600000$".length : Nat) = 21 := rfl
  have h2 : ("$".length : Nat) = 1 := rfl
  omega

/-! ## Store operations

`mongo.db.<coll>` collections are lists of documents; `find_one` scans for
the first match, `update_one` with `$set` updates the first match in place,
`insert_one` appends with a store-assigned `_id`. -/

/-- Whether a character is a hexadecimal digit. -/
def isHexChar (c : Char) : Bool :=
  c.isDigit || ('a' ≤ c && c ≤ 'f') || ('A' ≤ c && c ≤ 'F')

/-- `bson.objectid.ObjectId(s)` succeeds exactly on 24-character hex
strings; anything else raises `InvalidId`. -/
def isValidObjectId (s : String) : Bool :=
  s.length == 24 && s.data.all isHexChar

/-- A document matches the filter `{'email': email}`. -/
def emailMatches (d : Document) (email : String) : Bool :=
  match getField d "email" with
  | some (vStr s) => s == email
  | _ => false

/-- `find_one({'email': email})`. -/
def findByEmail (users : List Document) (email : String) : Option Document :=
  users.find? (fun d => emailMatches d email)

/-- A document matches the filter `{'_id': ObjectId(oid)}`. -/
def idMatches (d : Document) (oid : String) : Bool :=
  match getField d "_id" with
  | some (vId s) => s == oid
  | _ => false

/-- `find_one({'_id': ObjectId(oid)})`. -/
def findById (coll : List Document) (oid : String) : Option Document :=
  coll.find? (fun d => idMatches d oid)

/-- `update_one({'_id': ObjectId(oid)}, {'$set': upd})`: apply the `$set`
to the first matching document, leave everything else untouched. -/
def updateById : List Document → String → List (String × BVal) → List Document
  | [], _, _ => []
  | d :: rest, oid, upd =>
    if idMatches d oid then applySet d upd :: rest
    else d :: updateById rest oid upd

/-! ## Handler outcomes -/

/-- Where a handler sends the client: a redirect to an endpoint or a
rendered template. -/
inductive Target where
  | redirectTo : String → Target
  | render : String → Target
deriving DecidableEq

/-- The user-facing outcome of a handler: flashed `(message, category)`
pairs and the final target. -/
structure HOut where
  flashes : List (String × String)
  target : Target
deriving DecidableEq

/-- A submitted file part (`request.files[...]`): its client-supplied
filename. -/
structure FileUpload where
  filename : String
deriving DecidableEq

/-! ## Registration (`register`, main.py:46-108) -/

/-- Environment inputs of a registration: the `strftime` timestamp, the
hash salt drawn by werkzeug, the `utcnow` tick and the store-assigned id. -/
structure RegisterEnv where
  timestamp : String
  salt : String
  now : Nat
  newId : String

/-- The mutable state registration touches: the `users` collection and the
set of files in the upload directory. -/
structure RegState where
  users : List Document
  files : List String

/-- The farmer `location` sub-document built at registration
(main.py:91-96): each field defaults to the empty string when absent. -/
def registerLocation (form : Form) : BVal :=
  vDoc [("address", vStr ((fget form "address").getD "")),
        ("city", vStr ((fget form "city").getD "")),
        ("state", vStr ((fget form "state").getD "")),
        ("zipcode", vStr ((fget form "zipcode").getD ""))]

/-- `insert_one` id assignment (main.py:99): the store assigns a fresh
`_id` only when the inserted document lacks one; a document that already
carries an `_id` binding (e.g. from a submitted form field named `_id`) is
stored verbatim and gets no store-assigned id. -/
def insertOneDoc (d : Document) (newId : String) : Document :=
  match getField d "_id" with
  | some _ => d
  | none => setField d "_id" (vId newId)

/-- The user document assembled by a successful registration
(main.py:49-99): the submitted form as a dict, then `image_url`, hashed
`password` and `created_at` set, then the farmer-specific fields when the
submitted `user_type` is `'farmer'`, and finally `insert_one`'s id
assignment. -/
def registerDoc (form : Form) (env : RegisterEnv) (pw ut filename : String) : Document :=
  let d1 := setField (formToDoc form) "image_url" (vStr ("uploads/" ++ filename))
  let d2 := setField d1 "password" (vStr (generate_password_hash env.salt pw))
  let d3 := setField d2 "created_at" (vTime env.now)
  let d4 :=
    if ut = "farmer" then
      setField (setField d3 "farm_name" (vStr ((fget form "farm_name").getD "")))
        "location" (registerLocation form)
    else d3
  insertOneDoc d4 env.newId

/-- The `register` POST handler (main.py:46-108). -/
def register (st : RegState) (form : Form) (file : Option FileUpload)
    (env : RegisterEnv) : RegState × HOut :=
  match fget form "password", fget form "user_type", file with
  | some pw, some ut, some f =>
    if !(fhas form "name" && fhas form "email") then
      (st, ⟨[("Please fill all required fields including profile picture", "error")],
            .redirectTo "register"⟩)
    else if f.filename = "" then
      (st, ⟨[("Profile picture is required", "error")], .redirectTo "register"⟩)
    else if !allowed_file f.filename then
      (st, ⟨[("Only JPG, PNG files are allowed", "error")], .redirectTo "register"⟩)
    else
      match rsplitExt (secure_filename f.filename) with
      | none =>
        (st, ⟨[("Account creation failed. Please try again.", "error")],
              .redirectTo "register"⟩)
      | some ext =>
        let filename := "user_" ++ env.timestamp ++ "." ++ strToLower ext
        ({ users := st.users ++ [registerDoc form env pw ut filename],
           files := filename :: st.files },
         ⟨[("Account created successfully! Please login.", "success")],
          .redirectTo "login"⟩)
  | _, _, _ =>
    (st, ⟨[("Please fill all required fields including profile picture", "error")],
          .redirectTo "register"⟩)

/-! ## Login (`login`, main.py:110-136) -/

/-- The outcome of a login POST: the session fields the handler assigned
(in order) and the user-facing outcome. -/
structure LoginResult where
  sessionSet : List (String × BVal)
  out : HOut

/-- The `login` POST handler (main.py:110-136). -/
def login (users : List Document) (form : Form) : LoginResult :=
  let email := fget form "email"
  let password := fget form "password"
  if !truthy email || !truthy password then
    { sessionSet := [],
      out := ⟨[("Please enter both email and password", "error")], .redirectTo "login"⟩ }
  else
    match email, password with
    | some e, some p =>
      match findByEmail users e with
      | some user =>
        match getField user "password" with
        | some (vStr h) =>
          if check_password_hash h p then
            match getField user "_id" with
            | some idv =>
              match getField user "user_type" with
              | some utv =>
                { sessionSet := [("user_id", vStr (strOfBVal idv)), ("user_type", utv),
                                 ("name", (getField user "name").getD (vStr "User"))],
                  out := ⟨[("Login successful!", "success")], .redirectTo "dashboard"⟩ }
              | none =>
                { sessionSet := [("user_id", vStr (strOfBVal idv))],
                  out := ⟨[("Login failed. Please try again.", "error")],
                          .render "auth/login.html"⟩ }
            | none =>
              { sessionSet := [],
                out := ⟨[("Login failed. Please try again.", "error")],
                        .render "auth/login.html"⟩ }
          else
            { sessionSet := [],
              out := ⟨[("Invalid email or password", "error")], .render "auth/login.html"⟩ }
        | _ =>
          { sessionSet := [],
            out := ⟨[("Login failed. Please try again.", "error")],
                    .render "auth/login.html"⟩ }
      | none =>
        { sessionSet := [],
          out := ⟨[("Invalid email or password", "error")], .render "auth/login.html"⟩ }
    | _, _ =>
      { sessionSet := [],
        out := ⟨[("Please enter both email and password", "error")], .redirectTo "login"⟩ }

/-! ## Password change (`change_password`, main.py:391-420) -/

/-- The `change_password` POST handler (main.py:391-420), for a request
whose session already validated to user id `uid`. Missing form fields raise
`KeyError` into the broad `except`, as does a stored password value that is
not a string (werkzeug then fails to split it). -/
def change_password (users : List Document) (uid : String) (form : Form)
    (salt : String) : List Document × HOut :=
  match fget form "current_password", fget form "new_password",
        fget form "confirm_password" with
  | some curPw, some newPw, some confirmPw =>
    if newPw ≠ confirmPw then
      (users, ⟨[("New passwords do not match", "error")], .redirectTo "profile"⟩)
    else
      match findById users uid with
      | none => (users, ⟨[("Current password is incorrect", "error")], .redirectTo "profile"⟩)
      | some user =>
        match getField user "password" with
        | some (vStr h) =>
          if check_password_hash h curPw then
            (updateById users uid
               [("password", vStr (generate_password_hash salt newPw))],
             ⟨[("Password updated successfully!", "success")], .redirectTo "profile"⟩)
          else
            (users, ⟨[("Current password is incorrect", "error")], .redirectTo "profile"⟩)
        | _ => (users, ⟨[("Failed to change password", "error")], .redirectTo "profile"⟩)
  | _, _, _ => (users, ⟨[("Failed to change password", "error")], .redirectTo "profile"⟩)

/-! ## Profile update (`update_profile`, main.py:268-306) -/

/-- A possibly-`None` string value inside a sub-document: Python `None`
is stored as BSON null. -/
def optV : Option String → BVal
  | none => vNull
  | some s => vStr s

/-- The `$set` document built by `update_profile` (main.py:276-295): the
four general fields, plus `farm_name` and a wholesale `location`
sub-document for farmers, with entries whose value is `None` (absent from
the form) removed — entries submitted as empty strings are kept. -/
def updateProfileData (userType : Option String) (form : Form) :
    List (String × BVal) :=
  let base : List (String × Option BVal) :=
    [("name", (fget form "name").map vStr),
     ("email", (fget form "email").map vStr),
     ("phone", (fget form "phone").map vStr),
     ("description", (fget form "description").map vStr)]
  let withFarmer :=
    if userType = some "farmer" then
      base ++ [("farm_name", (fget form "farm_name").map vStr),
               ("location", some (vDoc
                 [("address", optV (fget form "address")),
                  ("city", optV (fget form "city")),
                  ("state", optV (fget form "state")),
                  ("zipcode", optV (fget form "zipcode"))]))]
    else base
  withFarmer.filterMap (fun p => p.2.map (fun v => (p.1, v)))

/-- The `update_profile` POST handler (main.py:268-306), for a request
whose session already validated to user id `uid` with session user_type
`userType`. -/
def update_profile (users : List Document) (uid : String)
    (userType : Option String) (form : Form) : List Document × HOut :=
  (updateById users uid (updateProfileData userType form),
   ⟨[("Profile updated successfully!", "success")], .redirectTo "profile"⟩)

/-! ## Social links update (`update_social_links`, main.py:363-389) -/

/-- Keep a social-link entry exactly when its value is truthy (present and
non-empty): `{k: v for k, v in social_links.items() if v}`. -/
def keepTruthyLink (p : String × Option String) : Option (String × BVal) :=
  match p.2 with
  | some v => if v ≠ "" then some (p.1, vStr v) else none
  | none => none

/-- The social-links dict built by `update_social_links` (main.py:370-378):
the four platform fields with falsy values (absent or empty) removed. -/
def socialLinksData (form : Form) : List (String × BVal) :=
  ([("facebook", fget form "facebook"), ("twitter", fget form "twitter"),
    ("instagram", fget form "instagram"), ("youtube", fget form "youtube")]
    : List (String × Option String)).filterMap keepTruthyLink

/-- The `update_social_links` POST handler (main.py:363-389): `$set`s the
whole `social_links` field to the freshly built dict. -/
def update_social_links (users : List Document) (uid : String) (form : Form) :
    List Document × HOut :=
  (updateById users uid [("social_links", vDoc (socialLinksData form))],
   ⟨[("Social links updated!", "success")], .redirectTo "profile"⟩)

/-! ## Profile picture update (`update_profile_picture`, main.py:308-361) -/

/-- The `update_profile_picture` POST handler (main.py:308-361), for a
request whose session already validated to user id `uid`. `modified_count`
is 1 exactly when a user matched and its stored `image_url` differed from
the new value. -/
def update_profile_picture (users : List Document) (files : List String)
    (uid : String) (file : Option FileUpload) (timestamp : String) :
    List Document × List String × HOut :=
  match file with
  | none => (users, files, ⟨[("No file selected", "error")], .redirectTo "profile"⟩)
  | some f =>
    if f.filename = "" then
      (users, files, ⟨[("No file selected", "error")], .redirectTo "profile"⟩)
    else if !allowed_file f.filename then
      (users, files,
       ⟨[("Allowed file types: png, jpg, jpeg, gif", "error")], .redirectTo "profile"⟩)
    else
      match rsplitExt (secure_filename f.filename) with
      | none =>
        (users, files,
         ⟨[("Error updating profile picture", "error")], .redirectTo "profile"⟩)
      | some ext =>
        let filename := "profile_" ++ uid ++ "_" ++ timestamp ++ "." ++ strToLower ext
        let image_url := "uploads/" ++ filename
        let modified :=
          match findById users uid with
          | some u =>
            match getField u "image_url" with
            | some (vStr s) => s != image_url
            | _ => true
          | none => false
        (updateById users uid [("image_url", vStr image_url)], filename :: files,
         if modified then
           ⟨[("Profile picture updated successfully!", "success")], .redirectTo "profile"⟩
         else
           ⟨[("Failed to update profile picture", "error")], .redirectTo "profile"⟩)

/-! ## Add product (`add_product`, main.py:197-266) -/

/-- Modelled in part: Python `float(...)` on the plain non-negative decimal
literals relevant here, as a scaled integer `(mantissa, decimal places)`;
other literal forms Python would also accept do not affect any claim. -/
def pyFloat? (s : String) : Option (Int × Nat) :=
  match splitOnChar s '.' with
  | [a] => (strToNat? a).map (fun n => ((n : Int), 0))
  | [a, b] =>
    match strToNat? a, strToNat? b with
    | some x, some y => some (((x * 10 ^ b.length + y : Nat) : Int), b.length)
    | _, _ => none
  | _ => none

/-- Modelled in part: Python `int(...)` on the plain non-negative integer
literals relevant here. -/
def pyInt? (s : String) : Option Int :=
  (strToNat? s).map (fun n => (n : Int))

/-- Modelled from the spec: Flask's `url_for('static', filename=...)`
(framework, not in `src/`) — the URL path of a static asset: the static
route prefix followed by the filename. -/
def url_for_static (filename : String) : String := "/static/" ++ filename

/-- Environment inputs of a product creation: the `strftime` timestamp, the
`utcnow` tick and the store-assigned id. -/
structure ProductEnv where
  timestamp : String
  now : Nat
  newId : String

/-- The `add_product` POST handler (main.py:197-266), for a request whose
session already validated to user id `uid` with session user_type
`userType`. -/
def add_product (products : List Document) (files : List String) (uid : String)
    (userType : Option String) (form : Form) (file : Option FileUpload)
    (env : ProductEnv) : List Document × List String × HOut :=
  if userType ≠ some "farmer" then
    (products, files,
     ⟨[("Please login as a farmer to add products", "warning")], .redirectTo "login"⟩)
  else if !(["name", "category", "price", "quantity", "description"].all (fhas form)) then
    (products, files, ⟨[("Please fill all required fields", "error")], .redirectTo "add_product"⟩)
  else
    match (fget form "price").bind pyFloat?, (fget form "quantity").bind pyInt? with
    | some pr, some qt =>
      let form_data : Document :=
        [("name", vStr ((fget form "name").getD "")),
         ("category", vStr ((fget form "category").getD "")),
         ("price", vNum pr.1 pr.2),
         ("quantity", vInt qt),
         ("description", vStr ((fget form "description").getD "")),
         ("farmer_id", vId uid),
         ("created_at", vTime env.now),
         ("is_organic", vBool (fhas form "is_organic"))]
      match file with
      | none =>
        (products, files, ⟨[("No file was submitted", "error")], .redirectTo "add_product"⟩)
      | some f =>
        if f.filename = "" then
          (products, files, ⟨[("No file selected", "error")], .redirectTo "add_product"⟩)
        else if allowed_file f.filename then
          let filename := env.timestamp ++ "_" ++ secure_filename f.filename
          let form_data2 :=
            setField form_data "image_url" (vStr (url_for_static ("uploads/" ++ filename)))
          (products ++ [setField form_data2 "_id" (vId env.newId)], filename :: files,
           ⟨[("Product added successfully!", "success")], .redirectTo "dashboard"⟩)
        else
          (products, files,
           ⟨[("Allowed file types: png, jpg, jpeg, gif", "error")], .redirectTo "add_product"⟩)
    | _, _ =>
      (products, files, ⟨[("Invalid price or quantity", "error")], .redirectTo "add_product"⟩)

/-! ## Product listing and detail (main.py:164-195) -/

/-- A document matches the filter `{'category': c}`. -/
def categoryMatches (d : Document) (c : String) : Bool :=
  match getField d "category" with
  | some (vStr s) => s == c
  | _ => false

/-- The `product_list` handler (main.py:164-177): builds `query` from the
`category` query parameter only when that parameter is truthy, then returns
`find(query)`. -/
def product_list (products : List Document) (category : Option String) :
    List Document :=
  if truthy category then
    match category with
    | some c => products.filter (fun d => categoryMatches d c)
    | none => products
  else products

/-- The `product_detail` handler (main.py:179-195): parse the identifier
(failure → `InvalidId`), look the product up, then look its farmer up for
display. The handler only reads; both collections pass through unchanged. -/
def product_detail (products users : List Document) (pid : String) :
    List Document × List Document × HOut :=
  if !isValidObjectId pid then
    (products, users, ⟨[("Invalid product ID", "error")], .redirectTo "product_list"⟩)
  else
    match findById products pid with
    | none => (products, users, ⟨[("Product not found", "error")], .redirectTo "product_list"⟩)
    | some product =>
      match getField product "farmer_id" with
      | some _ => (products, users, ⟨[], .render "products/detail.html"⟩)
      | none =>
        (products, users, ⟨[("Error loading product", "error")], .redirectTo "product_list"⟩)

/-! ## Profile view (`profile`, main.py:423-481) -/

/-- Python truthiness of an optional stored value (`not user.get(...)`):
absent, `None`, `''`, `0`, `False` and empty dicts are falsy. -/
def bvalTruthy : Option BVal → Bool
  | none => false
  | some vNull => false
  | some (vStr s) => s != ""
  | some (vBool b) => b
  | some (vInt n) => n != 0
  | some (vNum m _) => m != 0
  | some (vTime _) => true
  | some (vId _) => true
  | some (vDoc l) => !l.isEmpty

/-- Whether a path string is absolute (starts with a slash). -/
def startsWithSlash (s : String) : Bool :=
  match s.data with
  | c :: _ => c = '/'
  | [] => false

/-- `os.path.join(a, b)`: an absolute second component discards the first. -/
def joinPath (a b : String) : String :=
  if startsWithSlash b then b else a ++ "/" ++ b

/-- `dict.setdefault(k, v)`: append the default binding when the key is
absent. -/
def setdefault (d : Document) (k : String) (v : BVal) : Document :=
  match getField d k with
  | some _ => d
  | none => d ++ [(k, v)]

/-- The field subset projected by the profile query (main.py:431-444);
Mongo projections always include `_id`. -/
def profileProjection : List String :=
  ["name", "email", "phone", "farm_name", "location", "image_url",
   "social_links", "description", "user_type"]

/-- Apply a Mongo inclusion projection. -/
def projectDoc (d : Document) (keys : List String) : Document :=
  d.filter (fun p => keys.contains p.1 || p.1 == "_id")

/-- The outcome of a profile view: whether the session was cleared, the
user-facing outcome, and the user dict handed to the template when one was
rendered. -/
structure ProfileResult where
  sessionCleared : Bool
  out : HOut
  shown : Option Document

/-- The outcome of the broad `except` around the profile handler
(main.py:478-481). -/
def profileException : ProfileResult :=
  { sessionCleared := false,
    out := ⟨[("Failed to load profile. Please try again.", "error")],
            .redirectTo "dashboard"⟩,
    shown := none }

/-- Whether the (projected) user record is a farmer
(`user.get('user_type') == 'farmer'`). -/
def isFarmerDoc (user : Document) : Bool :=
  match getField user "user_type" with
  | some (vStr s) => s == "farmer"
  | _ => false

/-- The default-image substitution branch of the profile view
(main.py:466-467 and 472-473): read `app.config['DEFAULT_IMAGES']` and
index it with the role key — either read of a missing key raises
`KeyError` into the broad `except`. -/
def profileDefaultImage (cfg : AppConfig) (user : Document) : Option String :=
  match cfg.DEFAULT_IMAGES with
  | none => none
  | some imgs =>
    let key := if isFarmerDoc user then "farmer" else "profile"
    (imgs.find? (fun p => p.1 == key)).map (·.2)

/-- Render the profile with the given user dict (main.py:475-476). -/
def profileRender (user : Document) : ProfileResult :=
  { sessionCleared := false,
    out := ⟨[], .render (if isFarmerDoc user then "farmers/profile.html"
                         else "customers/profile.html")⟩,
    shown := some user }

/-- The `profile` handler (main.py:423-481), for a request whose session
already validated to user id `uid`; `disk` is the set of paths that exist
on disk and `staticFolder` is `app.static_folder`. -/
def profile (users : List Document) (disk : List String) (staticFolder : String)
    (uid : String) (cfg : AppConfig) : ProfileResult :=
  match findById users uid with
  | none =>
    { sessionCleared := true,
      out := ⟨[("Account not found", "error")], .redirectTo "register"⟩,
      shown := none }
  | some user0 =>
    let user1 := projectDoc user0 profileProjection
    match getField user1 "_id" with
    | none => profileException
    | some idv =>
      let user2 := setField user1 "_id" (vStr (strOfBVal idv))
      let user3 := setdefault user2 "location"
        (vDoc [("address", vStr ""), ("city", vStr ""),
               ("state", vStr ""), ("zipcode", vStr "")])
      let user4 := setdefault user3 "social_links" (vDoc [])
      let user5 := setdefault user4 "description" (vStr "")
      if !bvalTruthy (getField user5 "image_url") then
        match profileDefaultImage cfg user5 with
        | none => profileException
        | some path => profileRender (setField user5 "image_url" (vStr path))
      else
        match getField user5 "image_url" with
        | some (vStr s) =>
          if !disk.contains (joinPath staticFolder s) then
            match profileDefaultImage cfg user5 with
            | none => profileException
            | some path => profileRender (setField user5 "image_url" (vStr path))
          else profileRender user5
        | _ => profileException

/-- Whether `p` is a prefix of `s` (for checking the `uploads/<filename>`
shape of stored image paths). -/
def strHasPrefix (p s : String) : Bool := p.data.isPrefixOf s.data

/-! # Claim theorems -/

/-- C10: a `GET /products` request whose `category` query parameter is
present but empty applies no filter and returns the same product set as a
request with no `category` parameter at all; the filter narrows the query
exactly when the parameter is a non-empty string. -/
theorem product_list_empty_category_unfiltered (products : List Document) :
    product_list products (some "") = product_list products none ∧
    product_list products none = products ∧
    (∀ c : String, c ≠ "" →
      product_list products (some c) =
        products.filter (fun d => categoryMatches d c)) := by
  refine ⟨by simp [product_list, truthy], by simp [product_list, truthy], ?_⟩
  intro c hc
  simp [product_list, truthy, hc]

theorem product_list_empty_category_unfiltered_witness :
    product_list [[("category", vStr "fruit")], [("category", vStr "veg")]] (some "") =
      product_list [[("category", vStr "fruit")], [("category", vStr "veg")]] none ∧
    product_list [[("category", vStr "fruit")], [("category", vStr "veg")]] (some "fruit") =
      [[("category", vStr "fruit")]] := by
  have h := product_list_empty_category_unfiltered
    [[("category", vStr "fruit")], [("category", vStr "veg")]]
  refine ⟨h.1, ?_⟩
  rw [h.2.2 "fruit" (by decide)]
  rfl

/-- C8: a product-detail request whose identifier is not a well-formed
ObjectId redirects to the listing with the "Invalid product ID" message,
distinct from the "Product not found" message used when the identifier
parses but no product matches, and performs no store mutation. -/
theorem product_detail_invalid_id_distinct (products users : List Document)
    (pid : String) (h : isValidObjectId pid = false) :
    product_detail products users pid =
      (products, users,
       ⟨[("Invalid product ID", "error")], Target.redirectTo "product_list"⟩) ∧
    ("Invalid product ID" : String) ≠ "Product not found" ∧
    (∀ pid2, isValidObjectId pid2 = true → findById products pid2 = none →
      product_detail products users pid2 =
        (products, users,
         ⟨[("Product not found", "error")], Target.redirectTo "product_list"⟩)) := by
  refine ⟨by simp [product_detail, h], by decide, ?_⟩
  intro pid2 h2 hf
  simp [product_detail, h2, hf]

theorem product_detail_invalid_id_distinct_witness :
    product_detail [] [] "not-an-id" =
      ([], [], ⟨[("Invalid product ID", "error")], Target.redirectTo "product_list"⟩) ∧
    product_detail [] [] "507f1f77bcf86cd799439011" =
      ([], [], ⟨[("Product not found", "error")], Target.redirectTo "product_list"⟩) := by
  have h := product_detail_invalid_id_distinct [] [] "not-an-id" (by decide)
  exact ⟨h.1, h.2.2 "507f1f77bcf86cd799439011" (by decide) rfl⟩

/-- On a disallowed filename, every branch of `register` that can run
leaves the users collection and the upload directory unchanged and flashes
a message. -/
theorem register_reject_of_not_allowed (st : RegState) (form : Form) (f : FileUpload)
    (env : RegisterEnv) (hal : allowed_file f.filename = false) :
    (register st form (some f) env).1 = st ∧
    (register st form (some f) env).2.flashes ≠ [] := by
  rcases hpw : fget form "password" with _ | pw <;>
  rcases hut : fget form "user_type" with _ | ut <;>
    simp only [register, hpw, hut]
  · simp
  · simp
  · simp
  · by_cases h1 : (fhas form "name" && fhas form "email") = true
    · by_cases h2 : f.filename = "" <;> simp [h1, h2, hal]
    · simp [h1]

/-- On a disallowed filename, every branch of `add_product` that can run
leaves the products collection and the upload directory unchanged and
flashes a message. -/
theorem add_product_reject_of_not_allowed (products : List Document)
    (files : List String) (uid : String) (userType : Option String)
    (form : Form) (f : FileUpload) (penv : ProductEnv)
    (hal : allowed_file f.filename = false) :
    (add_product products files uid userType form (some f) penv).1 = products ∧
    (add_product products files uid userType form (some f) penv).2.1 = files ∧
    (add_product products files uid userType form (some f) penv).2.2.flashes ≠ [] := by
  unfold add_product
  by_cases hu : userType = some "farmer"
  · simp only [hu]
    by_cases hreq : (["name", "category", "price", "quantity", "description"].all (fhas form)) = true
    · rcases hpr : (fget form "price").bind pyFloat? with _ | pr <;>
      rcases hqt : (fget form "quantity").bind pyInt? with _ | qt <;>
        simp only [hreq, hpr, hqt] <;> simp
      by_cases h2 : f.filename = "" <;> simp [h2, hal]
    · simp [hreq]
  · simp [hu]

/-- C3: a submitted filename that lacks a dot, or whose lowercased
substring after the last dot is outside {png, jpg, jpeg, gif}, fails
`allowed_file`, and the upload handlers reject it with a message, write no
file to the upload directory and insert or update no record. -/
theorem upload_bad_extension_rejected
    (st : RegState) (form : Form) (env : RegisterEnv)
    (products : List Document) (files : List String) (uid : String)
    (userType : Option String) (penv : ProductEnv) (f : FileUpload)
    (h : containsDot f.filename = false ∨
         ALLOWED_EXTENSIONS.contains (strToLower (extAfterLastDot f.filename)) = false) :
    allowed_file f.filename = false ∧
    (register st form (some f) env).1 = st ∧
    (register st form (some f) env).2.flashes ≠ [] ∧
    (add_product products files uid userType form (some f) penv).1 = products ∧
    (add_product products files uid userType form (some f) penv).2.1 = files ∧
    (add_product products files uid userType form (some f) penv).2.2.flashes ≠ [] := by
  have hal : allowed_file f.filename = false := by
    rcases h with h | h
    · unfold allowed_file; rw [h, Bool.false_and]
    · unfold allowed_file; rw [h, Bool.and_false]
  obtain ⟨h1, h2⟩ := register_reject_of_not_allowed st form f env hal
  obtain ⟨h3, h4, h5⟩ :=
    add_product_reject_of_not_allowed products files uid userType form f penv hal
  exact ⟨hal, h1, h2, h3, h4, h5⟩

theorem upload_bad_extension_rejected_witness :
    allowed_file "virus.exe" = false ∧
    (register { users := [], files := [] } [] (some ⟨"virus.exe"⟩)
        { timestamp := "t", salt := "s", now := 0, newId := "i" }).1 =
      { users := [], files := [] } ∧
    (register { users := [], files := [] } [] (some ⟨"virus.exe"⟩)
        { timestamp := "t", salt := "s", now := 0, newId := "i" }).2.flashes ≠ [] ∧
    (add_product [] [] "u" (some "farmer") [] (some ⟨"virus.exe"⟩)
        { timestamp := "t", now := 0, newId := "i" }).1 = [] ∧
    (add_product [] [] "u" (some "farmer") [] (some ⟨"virus.exe"⟩)
        { timestamp := "t", now := 0, newId := "i" }).2.1 = [] ∧
    (add_product [] [] "u" (some "farmer") [] (some ⟨"virus.exe"⟩)
        { timestamp := "t", now := 0, newId := "i" }).2.2.flashes ≠ [] :=
  upload_bad_extension_rejected { users := [], files := [] } []
    { timestamp := "t", salt := "s", now := 0, newId := "i" }
    [] [] "u" (some "farmer") { timestamp := "t", now := 0, newId := "i" }
    ⟨"virus.exe"⟩ (Or.inr (by decide))

/-- C6: a change-password POST writes to the stored password only when the
two new-password fields are equal and the current password verifies against
the stored hash (and then it writes exactly the hash of the new password);
when the new passwords differ it flashes "New passwords do not match" and
leaves the store unchanged, and when current-password verification fails it
also leaves the store unchanged. -/
theorem change_password_guarded (users : List Document) (uid : String)
    (form : Form) (salt : String) :
    ((change_password users uid form salt).1 ≠ users →
      ∃ curPw newPw user h, fget form "current_password" = some curPw ∧
        fget form "new_password" = some newPw ∧
        fget form "confirm_password" = some newPw ∧
        findById users uid = some user ∧
        getField user "password" = some (vStr h) ∧
        check_password_hash h curPw = true ∧
        (change_password users uid form salt).1 =
          updateById users uid
            [("password", vStr (generate_password_hash salt newPw))]) ∧
    (∀ newPw confirmPw, fget form "new_password" = some newPw →
      fget form "confirm_password" = some confirmPw → newPw ≠ confirmPw →
      fhas form "current_password" = true →
      (change_password users uid form salt).2.flashes =
        [("New passwords do not match", "error")] ∧
      (change_password users uid form salt).1 = users) ∧
    (∀ curPw user h, fget form "current_password" = some curPw →
      findById users uid = some user →
      getField user "password" = some (vStr h) →
      check_password_hash h curPw = false →
      (change_password users uid form salt).1 = users) := by
  rcases hc : fget form "current_password" with _ | curPw <;>
  rcases hn : fget form "new_password" with _ | newPw <;>
  rcases hf : fget form "confirm_password" with _ | confirmPw <;>
    simp only [change_password, hc, hn, hf]
  all_goals try (refine ⟨fun hh => absurd rfl hh,
    fun a b ha hb hne2 hhas => ?_, fun c u hh2 h1 h2 h3 h4 => ?_⟩ <;> simp_all [fhas])
  by_cases hne : newPw = confirmPw
  · subst hne
    rw [if_neg (fun hx => hx rfl)]
    rcases hu : findById users uid with _ | user <;> try dsimp only
    · refine ⟨fun hh => absurd rfl hh,
        fun a b ha hb hne2 hhas => ?_, fun c u hh2 h1 h2 h3 h4 => ?_⟩ <;> simp_all
    · rcases hp : getField user "password" with _ | pv <;> try dsimp only
      · refine ⟨fun hh => absurd rfl hh,
          fun a b ha hb hne2 hhas => ?_, fun c u hh2 h1 h2 h3 h4 => ?_⟩ <;> simp_all
      · cases pv <;> try dsimp only
        all_goals try (refine ⟨fun hh => absurd rfl hh,
          fun a b ha hb hne2 hhas => ?_, fun c u hh2 h1 h2 h3 h4 => ?_⟩ <;> simp_all)
        next h =>
          by_cases hch : check_password_hash h curPw = true
          · rw [if_pos hch]
            refine ⟨fun hh => ⟨curPw, newPw, user, h, rfl, rfl, rfl, rfl, hp, hch, rfl⟩,
              fun a b ha hb hne2 hhas => ?_, fun c u hh2 h1 h2 h3 h4 => ?_⟩ <;> simp_all
          · rw [if_neg hch]
            refine ⟨fun hh => absurd rfl hh,
              fun a b ha hb hne2 hhas => ?_, fun c u hh2 h1 h2 h3 h4 => ?_⟩ <;> simp_all
  · rw [if_pos hne]
    exact ⟨fun hh => absurd rfl hh,
      fun a b ha hb hne2 hhas => ⟨rfl, rfl⟩,
      fun c u hh2 h1 h2 h3 h4 => rfl⟩

theorem change_password_guarded_witness :
    (change_password
      [[("_id", vId "507f1f77bcf86cd799439011"),
        ("password", vStr (generate_password_hash "s" "old"))]]
      "507f1f77bcf86cd799439011"
      [("current_password", "old"), ("new_password", "a"), ("confirm_password", "b")]
      "s2").2.flashes = [("New passwords do not match", "error")] ∧
    (change_password
      [[("_id", vId "507f1f77bcf86cd799439011"),
        ("password", vStr (generate_password_hash "s" "old"))]]
      "507f1f77bcf86cd799439011"
      [("current_password", "old"), ("new_password", "a"), ("confirm_password", "b")]
      "s2").1 =
      [[("_id", vId "507f1f77bcf86cd799439011"),
        ("password", vStr (generate_password_hash "s" "old"))]] :=
  (change_password_guarded
    [[("_id", vId "507f1f77bcf86cd799439011"),
      ("password", vStr (generate_password_hash "s" "old"))]]
    "507f1f77bcf86cd799439011"
    [("current_password", "old"), ("new_password", "a"), ("confirm_password", "b")]
    "s2").2.1 "a" "b" rfl rfl (by decide) rfl

/-- C7 (counterexample): a login POST with a matching email but an empty
submitted password satisfies the claim's premise — the hash check fails
against the matched record — yet the handler flashes "Please enter both
email and password", not "Invalid email or password": the claim as stated
is false at this input (the empty-credential gate runs first). -/
theorem login_counterexample_empty_password :
    findByEmail
      [[("_id", vId "507f1f77bcf86cd799439011"), ("email", vStr "a@x.com"),
        ("password", vStr (generate_password_hash "s" "pw")),
        ("user_type", vStr "customer")]] "a@x.com" =
      some [("_id", vId "507f1f77bcf86cd799439011"), ("email", vStr "a@x.com"),
            ("password", vStr (generate_password_hash "s" "pw")),
            ("user_type", vStr "customer")] ∧
    check_password_hash (generate_password_hash "s" "pw") "" = false ∧
    (login
      [[("_id", vId "507f1f77bcf86cd799439011"), ("email", vStr "a@x.com"),
        ("password", vStr (generate_password_hash "s" "pw")),
        ("user_type", vStr "customer")]]
      [("email", "a@x.com"), ("password", "")]).sessionSet = [] ∧
    (login
      [[("_id", vId "507f1f77bcf86cd799439011"), ("email", vStr "a@x.com"),
        ("password", vStr (generate_password_hash "s" "pw")),
        ("user_type", vStr "customer")]]
      [("email", "a@x.com"), ("password", "")]).out.flashes =
      [("Please enter both email and password", "error")] ∧
    (("Please enter both email and password", "error") : String × String) ≠
      ("Invalid email or password", "error") := by
  refine ⟨rfl, by decide, rfl, rfl, by decide⟩

theorem truthy_some_of_ne (s : String) (h : s ≠ "") : truthy (some s) = true := by
  simp [truthy, h]

/-- C7 (amended): for every login POST whose submitted email and password
are both non-empty, when no record matches the email or the hash check
fails against the matched record, the handler flashes the same generic
"Invalid email or password" message in both cases and populates no session
fields; empty or missing credentials are instead rejected by the earlier
validation gate with "Please enter both email and password", also without
populating any session field. -/
theorem login_invalid_credentials_uniform (users : List Document) (form : Form)
    (e p : String) (he : fget form "email" = some e)
    (hpw : fget form "password" = some p) (hne : e ≠ "") (hnp : p ≠ "")
    (hfail : findByEmail users e = none ∨
      ∃ user h, findByEmail users e = some user ∧
        getField user "password" = some (vStr h) ∧
        check_password_hash h p = false) :
    ((login users form).sessionSet = [] ∧
     (login users form).out.flashes = [("Invalid email or password", "error")]) ∧
    (∀ form2, (truthy (fget form2 "email") = false ∨
        truthy (fget form2 "password") = false) →
      (login users form2).sessionSet = [] ∧
      (login users form2).out.flashes =
        [("Please enter both email and password", "error")]) := by
  constructor
  · have ht1 := truthy_some_of_ne e hne
    have ht2 := truthy_some_of_ne p hnp
    simp only [login, he, hpw, ht1, ht2]
    rcases hfail with hf | ⟨user, h, hu, hpp, hch⟩
    · rw [hf]
      dsimp only
      exact ⟨rfl, rfl⟩
    · rw [hu]
      dsimp only
      rw [hpp]
      try dsimp only
      rw [hch]
      try dsimp only
      exact ⟨rfl, rfl⟩
  · intro form2 hcond
    rcases hcond with h | h <;> simp [login, h]

theorem login_invalid_credentials_uniform_witness :
    ((login
        [[("_id", vId "507f1f77bcf86cd799439011"), ("email", vStr "a@x.com"),
          ("password", vStr (generate_password_hash "s" "pw")),
          ("user_type", vStr "customer")]]
        [("email", "a@x.com"), ("password", "wrong")]).sessionSet = [] ∧
     (login
        [[("_id", vId "507f1f77bcf86cd799439011"), ("email", vStr "a@x.com"),
          ("password", vStr (generate_password_hash "s" "pw")),
          ("user_type", vStr "customer")]]
        [("email", "a@x.com"), ("password", "wrong")]).out.flashes =
        [("Invalid email or password", "error")]) ∧
    ((login
        [[("_id", vId "507f1f77bcf86cd799439011"), ("email", vStr "a@x.com"),
          ("password", vStr (generate_password_hash "s" "pw")),
          ("user_type", vStr "customer")]]
        [("email", "nobody@x.com"), ("password", "x")]).sessionSet = [] ∧
     (login
        [[("_id", vId "507f1f77bcf86cd799439011"), ("email", vStr "a@x.com"),
          ("password", vStr (generate_password_hash "s" "pw")),
          ("user_type", vStr "customer")]]
        [("email", "nobody@x.com"), ("password", "x")]).out.flashes =
        [("Invalid email or password", "error")]) := by
  constructor
  · exact (login_invalid_credentials_uniform
      [[("_id", vId "507f1f77bcf86cd799439011"), ("email", vStr "a@x.com"),
        ("password", vStr (generate_password_hash "s" "pw")),
        ("user_type", vStr "customer")]]
      [("email", "a@x.com"), ("password", "wrong")]
      "a@x.com" "wrong" rfl rfl (by decide) (by decide)
      (Or.inr ⟨[("_id", vId "507f1f77bcf86cd799439011"), ("email", vStr "a@x.com"),
                ("password", vStr (generate_password_hash "s" "pw")),
                ("user_type", vStr "customer")],
        generate_password_hash "s" "pw", rfl, rfl, by decide⟩)).1
  · exact (login_invalid_credentials_uniform
      [[("_id", vId "507f1f77bcf86cd799439011"), ("email", vStr "a@x.com"),
        ("password", vStr (generate_password_hash "s" "pw")),
        ("user_type", vStr "customer")]]
      [("email", "nobody@x.com"), ("password", "x")]
      "nobody@x.com" "x" rfl rfl (by decide) (by decide) (Or.inl rfl)).1

theorem insertOneDoc_getField_ne (d : Document) (newId : String) (k : String)
    (h : k ≠ "_id") : getField (insertOneDoc d newId) k = getField d k := by
  unfold insertOneDoc
  cases getField d "_id" with
  | none => exact getField_setField_ne d "_id" k (vId newId) h
  | some v => rfl

theorem insertOneDoc_getField_id (d : Document) (newId : String) :
    getField (insertOneDoc d newId) "_id" =
      some ((getField d "_id").getD (vId newId)) := by
  unfold insertOneDoc
  cases h : getField d "_id" with
  | none => rw [getField_setField_self]; rfl
  | some v => rw [h]; rfl

theorem registerDoc_getField_password (form : Form) (env : RegisterEnv)
    (pw ut filename : String) :
    getField (registerDoc form env pw ut filename) "password" =
      some (vStr (generate_password_hash env.salt pw)) := by
  unfold registerDoc
  by_cases h : ut = "farmer" <;>
    simp [h, insertOneDoc_getField_ne, getField_setField_ne, getField_setField_self]

/-- Whenever `register` appends a record to the users collection, the run
was the success branch: the file part and the required form fields were
present and the appended record is exactly the assembled `registerDoc`. -/
theorem register_insert (st : RegState) (form : Form) (file : Option FileUpload)
    (env : RegisterEnv) (u : Document)
    (h : (register st form file env).1.users = st.users ++ [u]) :
    ∃ f pw ut ext, file = some f ∧ fget form "password" = some pw ∧
      fget form "user_type" = some ut ∧
      rsplitExt (secure_filename f.filename) = some ext ∧
      u = registerDoc form env pw ut
            ("user_" ++ env.timestamp ++ "." ++ strToLower ext) := by
  rcases file with _ | f <;>
  rcases hpw : fget form "password" with _ | pw <;>
  rcases hut : fget form "user_type" with _ | ut <;>
    simp only [register, hpw, hut] at h
  all_goals try (exfalso; simp at h; done)
  by_cases h1 : (fhas form "name" && fhas form "email") = true
  · simp only [h1, Bool.not_true] at h
    rw [if_neg (by simp)] at h
    by_cases h2 : f.filename = ""
    · rw [if_pos h2] at h
      exact absurd h (by simp)
    · rw [if_neg h2] at h
      by_cases h3 : allowed_file f.filename = true
      · simp only [h3, Bool.not_true] at h
        rw [if_neg (by simp)] at h
        rcases hext : rsplitExt (secure_filename f.filename) with _ | ext
        · rw [hext] at h
          exact absurd h (by simp)
        · rw [hext] at h
          simp only [List.append_cancel_left_eq, List.cons.injEq, and_true] at h
          exact ⟨f, pw, ut, ext, rfl, rfl, rfl, hext, h.symm⟩
      · have h3' : allowed_file f.filename = false := by
          revert h3; cases allowed_file f.filename <;> simp
        simp only [h3', Bool.not_false] at h
        simp at h
  · have h1' : (fhas form "name" && fhas form "email") = false := by
      revert h1; cases (fhas form "name" && fhas form "email") <;> simp
    simp only [h1', Bool.not_false] at h
    simp at h

/-- A change-password run that passes all the guards performs exactly the
`$set` of the hashed new password. -/
theorem change_password_success_writes_hash (users : List Document) (uid : String)
    (form : Form) (salt curPw newPw : String) (user : Document) (h : String)
    (hc : fget form "current_password" = some curPw)
    (hn : fget form "new_password" = some newPw)
    (hf : fget form "confirm_password" = some newPw)
    (hu : findById users uid = some user)
    (hp : getField user "password" = some (vStr h))
    (hch : check_password_hash h curPw = true) :
    (change_password users uid form salt).1 =
      updateById users uid
        [("password", vStr (generate_password_hash salt newPw))] := by
  simp only [change_password, hc, hn, hf]
  rw [if_neg (fun hx => hx rfl)]
  rw [hu]
  dsimp only
  rw [hp]
  try dsimp only
  rw [if_pos hch]

/-- C2: the password stored by a successful registration is the hash of the
submitted plaintext and never the plaintext itself, and the password
written by a successful password change is the hash of the submitted new
password and never the plaintext either. -/
theorem stored_password_never_plaintext :
    (∀ (st : RegState) (form : Form) (file : Option FileUpload)
        (env : RegisterEnv) (u : Document),
      (register st form file env).1.users = st.users ++ [u] →
      ∃ pw, fget form "password" = some pw ∧
        getField u "password" = some (vStr (generate_password_hash env.salt pw)) ∧
        generate_password_hash env.salt pw ≠ pw) ∧
    (∀ (users : List Document) (uid : String) (form : Form)
        (salt curPw newPw : String) (user : Document) (h : String),
      fget form "current_password" = some curPw →
      fget form "new_password" = some newPw →
      fget form "confirm_password" = some newPw →
      findById users uid = some user →
      getField user "password" = some (vStr h) →
      check_password_hash h curPw = true →
      (change_password users uid form salt).1 =
        updateById users uid
          [("password", vStr (generate_password_hash salt newPw))] ∧
      generate_password_hash salt newPw ≠ newPw) := by
  constructor
  · intro st form file env u hins
    obtain ⟨f, pw, ut, ext, -, hpw, -, -, hu⟩ := register_insert st form file env u hins
    refine ⟨pw, hpw, ?_, generate_password_hash_ne _ _⟩
    rw [hu, registerDoc_getField_password]
  · intro users uid form salt curPw newPw user h hc hn hf hu hp hch
    exact ⟨change_password_success_writes_hash users uid form salt
      curPw newPw user h hc hn hf hu hp hch,
      generate_password_hash_ne _ _⟩

theorem stored_password_never_plaintext_witness :
    (∃ pw, fget [("name", "n"), ("email", "e@x"), ("password", "pw"),
        ("user_type", "customer")] "password" = some pw ∧
      getField
        [("name", vStr "n"), ("email", vStr "e@x"),
         ("password", vStr (generate_password_hash "s" "pw")),
         ("user_type", vStr "customer"),
         ("image_url", vStr "uploads/user_20240101000000.png"),
         ("created_at", vTime 0), ("_id", vId "id24")] "password" =
        some (vStr (generate_password_hash "s" pw)) ∧
      generate_password_hash "s" pw ≠ pw) ∧
    ((change_password
        [[("_id", vId "507f1f77bcf86cd799439011"),
          ("password", vStr (generate_password_hash "s" "old"))]]
        "507f1f77bcf86cd799439011"
        [("current_password", "old"), ("new_password", "n1"),
         ("confirm_password", "n1")] "s2").1 =
      updateById
        [[("_id", vId "507f1f77bcf86cd799439011"),
          ("password", vStr (generate_password_hash "s" "old"))]]
        "507f1f77bcf86cd799439011"
        [("password", vStr (generate_password_hash "s2" "n1"))] ∧
      generate_password_hash "s2" "n1" ≠ "n1") := by
  constructor
  · exact (stored_password_never_plaintext).1
      { users := [], files := [] }
      [("name", "n"), ("email", "e@x"), ("password", "pw"), ("user_type", "customer")]
      (some ⟨"a.png"⟩)
      { timestamp := "20240101000000", salt := "s", now := 0, newId := "id24" }
      [("name", vStr "n"), ("email", vStr "e@x"),
       ("password", vStr (generate_password_hash "s" "pw")),
       ("user_type", vStr "customer"),
       ("image_url", vStr "uploads/user_20240101000000.png"),
       ("created_at", vTime 0), ("_id", vId "id24")] rfl
  · exact (stored_password_never_plaintext).2
      [[("_id", vId "507f1f77bcf86cd799439011"),
        ("password", vStr (generate_password_hash "s" "old"))]]
      "507f1f77bcf86cd799439011"
      [("current_password", "old"), ("new_password", "n1"), ("confirm_password", "n1")]
      "s2" "old" "n1"
      [("_id", vId "507f1f77bcf86cd799439011"),
       ("password", vStr (generate_password_hash "s" "old"))]
      (generate_password_hash "s" "old")
      rfl rfl rfl rfl rfl (by decide)

theorem registerDoc_getField_form (form : Form) (env : RegisterEnv)
    (pw ut filename : String) (k : String)
    (h1 : k ≠ "_id") (h2 : k ≠ "image_url") (h3 : k ≠ "password")
    (h4 : k ≠ "created_at") (h5 : k ≠ "farm_name") (h6 : k ≠ "location") :
    getField (registerDoc form env pw ut filename) k = (fget form k).map vStr := by
  unfold registerDoc
  by_cases h : ut = "farmer" <;>
    simp [h, insertOneDoc_getField_ne, getField_setField_ne, getField_setField_self,
      getField_formToDoc, h1, h2, h3, h4, h5, h6]

theorem registerDoc_getField_image_url (form : Form) (env : RegisterEnv)
    (pw ut filename : String) :
    getField (registerDoc form env pw ut filename) "image_url" =
      some (vStr ("uploads/" ++ filename)) := by
  unfold registerDoc
  by_cases h : ut = "farmer" <;>
    simp [h, insertOneDoc_getField_ne, getField_setField_ne, getField_setField_self]

theorem registerDoc_getField_created_at (form : Form) (env : RegisterEnv)
    (pw ut filename : String) :
    getField (registerDoc form env pw ut filename) "created_at" =
      some (vTime env.now) := by
  unfold registerDoc
  by_cases h : ut = "farmer" <;>
    simp [h, insertOneDoc_getField_ne, getField_setField_ne, getField_setField_self]

/-- C4 (counterexample): registration never validates the submitted
`user_type` against the {farmer, customer} enum and inserts every submitted
form field: a form with `user_type=admin`, a stray `bogus` field and even a
client-supplied `_id` field yields a stored record with
`user_type = "admin"` — outside the enum — with the extra `bogus` field,
and with the client string `"hack"` kept verbatim as its `_id` (no
store-assigned identifier), so the record does not match the User schema
for every possible submitted form. -/
theorem register_user_type_unvalidated :
    getField (((register { users := [], files := [] }
        [("name", "Eve"), ("email", "e@x.com"), ("password", "pw"),
         ("user_type", "admin"), ("bogus", "1"), ("_id", "hack")]
        (some ⟨"a.png"⟩)
        { timestamp := "20240101000000", salt := "s", now := 0,
          newId := "id24" }).1.users).headD [])
      "user_type" = some (vStr "admin") ∧
    getField (((register { users := [], files := [] }
        [("name", "Eve"), ("email", "e@x.com"), ("password", "pw"),
         ("user_type", "admin"), ("bogus", "1"), ("_id", "hack")]
        (some ⟨"a.png"⟩)
        { timestamp := "20240101000000", salt := "s", now := 0,
          newId := "id24" }).1.users).headD [])
      "bogus" = some (vStr "1") ∧
    getField (((register { users := [], files := [] }
        [("name", "Eve"), ("email", "e@x.com"), ("password", "pw"),
         ("user_type", "admin"), ("bogus", "1"), ("_id", "hack")]
        (some ⟨"a.png"⟩)
        { timestamp := "20240101000000", salt := "s", now := 0,
          newId := "id24" }).1.users).headD [])
      "_id" = some (vStr "hack") ∧
    ("admin" : String) ≠ "farmer" ∧ ("admin" : String) ≠ "customer" :=
  ⟨rfl, rfl, rfl, by decide, by decide⟩

theorem registerDoc_getField_id (form : Form) (env : RegisterEnv)
    (pw ut filename : String) :
    getField (registerDoc form env pw ut filename) "_id" =
      some (((fget form "_id").map vStr).getD (vId env.newId)) := by
  simp only [registerDoc]
  rw [insertOneDoc_getField_id]
  by_cases h : ut = "farmer" <;>
    simp [h, getField_setField_ne, getField_formToDoc]

theorem registerDoc_getField_farmer (form : Form) (env : RegisterEnv)
    (pw filename : String) :
    getField (registerDoc form env pw "farmer" filename) "farm_name" =
      some (vStr ((fget form "farm_name").getD "")) ∧
    getField (registerDoc form env pw "farmer" filename) "location" =
      some (registerLocation form) := by
  constructor <;>
  · simp only [registerDoc]
    simp [insertOneDoc_getField_ne, getField_setField_ne, getField_setField_self]

theorem registerDoc_getField_nonfarmer (form : Form) (env : RegisterEnv)
    (pw ut filename : String) (h : ut ≠ "farmer") :
    getField (registerDoc form env pw ut filename) "farm_name" =
      (fget form "farm_name").map vStr ∧
    getField (registerDoc form env pw ut filename) "location" =
      (fget form "location").map vStr := by
  constructor <;>
  · simp only [registerDoc]
    simp [h, insertOneDoc_getField_ne, getField_setField_ne, getField_formToDoc]

/-- C4 (amended): every record inserted by registration carries the
submitted `user_type` verbatim (unvalidated), every other submitted form
field verbatim except the pipeline-owned keys — including a submitted
`_id`, which `insert_one` keeps verbatim so no store id is assigned — plus
an `image_url` of the form `uploads/<filename>`, a hashed `password`, the
`created_at` timestamp, an `_id` that is store-assigned exactly when the
form submitted none, and the farmer fields (`farm_name` defaulted to the
empty string, wholesale `location` sub-document) exactly when the submitted
`user_type` is `'farmer'` — for any other submitted `user_type`,
`farm_name` and `location` appear only as verbatim form fields. -/
theorem register_record_shape (st : RegState) (form : Form)
    (file : Option FileUpload) (env : RegisterEnv) (u : Document)
    (hins : (register st form file env).1.users = st.users ++ [u]) :
    (∀ ut, fget form "user_type" = some ut →
      getField u "user_type" = some (vStr ut)) ∧
    (∀ k v, fget form k = some v →
      k ≠ "_id" → k ≠ "image_url" → k ≠ "password" → k ≠ "created_at" →
      k ≠ "farm_name" → k ≠ "location" →
      getField u k = some (vStr v)) ∧
    (∃ fn, getField u "image_url" = some (vStr ("uploads/" ++ fn))) ∧
    (∃ hsh, getField u "password" = some (vStr hsh)) ∧
    getField u "created_at" = some (vTime env.now) ∧
    getField u "_id" = some (((fget form "_id").map vStr).getD (vId env.newId)) ∧
    (fget form "user_type" = some "farmer" →
      getField u "farm_name" = some (vStr ((fget form "farm_name").getD "")) ∧
      getField u "location" = some (registerLocation form)) ∧
    (∀ ut, fget form "user_type" = some ut → ut ≠ "farmer" →
      getField u "farm_name" = (fget form "farm_name").map vStr ∧
      getField u "location" = (fget form "location").map vStr) := by
  obtain ⟨f, pw, ut, ext, -, hpw, hut, -, hu⟩ := register_insert st form file env u hins
  subst hu
  refine ⟨?_, ?_, ?_, ?_, ?_, ?_, ?_, ?_⟩
  · intro ut2 hut2
    rw [registerDoc_getField_form form env pw ut _ "user_type"
      (by decide) (by decide) (by decide) (by decide) (by decide) (by decide), hut2]
    rfl
  · intro k v hkv hk1 hk2 hk3 hk4 hk5 hk6
    rw [registerDoc_getField_form form env pw ut _ k hk1 hk2 hk3 hk4 hk5 hk6, hkv]
    rfl
  · exact ⟨_, registerDoc_getField_image_url form env pw ut _⟩
  · exact ⟨_, registerDoc_getField_password form env pw ut _⟩
  · exact registerDoc_getField_created_at form env pw ut _
  · exact registerDoc_getField_id form env pw ut _
  · intro hft
    rw [hut] at hft
    injection hft with hh
    subst hh
    exact registerDoc_getField_farmer form env pw _
  · intro ut2 hut2 hne
    rw [hut] at hut2
    injection hut2 with hh
    subst hh
    exact registerDoc_getField_nonfarmer form env pw ut _ hne

theorem register_record_shape_witness :
    getField
      [("name", vStr "n"), ("email", vStr "e@x"),
       ("password", vStr (generate_password_hash "s" "pw")),
       ("user_type", vStr "customer"), ("phone", vStr "123"),
       ("image_url", vStr "uploads/user_20240101000000.png"),
       ("created_at", vTime 0), ("_id", vId "id24")] "user_type" =
      some (vStr "customer") ∧
    getField
      [("name", vStr "n"), ("email", vStr "e@x"),
       ("password", vStr (generate_password_hash "s" "pw")),
       ("user_type", vStr "customer"), ("phone", vStr "123"),
       ("image_url", vStr "uploads/user_20240101000000.png"),
       ("created_at", vTime 0), ("_id", vId "id24")] "phone" =
      some (vStr "123") ∧
    (∃ fn, getField
      [("name", vStr "n"), ("email", vStr "e@x"),
       ("password", vStr (generate_password_hash "s" "pw")),
       ("user_type", vStr "customer"), ("phone", vStr "123"),
       ("image_url", vStr "uploads/user_20240101000000.png"),
       ("created_at", vTime 0), ("_id", vId "id24")] "image_url" =
      some (vStr ("uploads/" ++ fn))) ∧
    getField
      [("name", vStr "n"), ("email", vStr "e@x"),
       ("password", vStr (generate_password_hash "s" "pw")),
       ("user_type", vStr "customer"), ("phone", vStr "123"),
       ("image_url", vStr "uploads/user_20240101000000.png"),
       ("created_at", vTime 0), ("_id", vId "id24")] "_id" =
      some (vId "id24") ∧
    getField
      [("name", vStr "n"), ("email", vStr "e@x"),
       ("password", vStr (generate_password_hash "s" "pw")),
       ("user_type", vStr "customer"), ("phone", vStr "123"),
       ("image_url", vStr "uploads/user_20240101000000.png"),
       ("created_at", vTime 0), ("_id", vId "id24")] "farm_name" = none := by
  have h := register_record_shape { users := [], files := [] }
    [("name", "n"), ("email", "e@x"), ("password", "pw"),
     ("user_type", "customer"), ("phone", "123")]
    (some ⟨"a.png"⟩)
    { timestamp := "20240101000000", salt := "s", now := 0, newId := "id24" }
    [("name", vStr "n"), ("email", vStr "e@x"),
     ("password", vStr (generate_password_hash "s" "pw")),
     ("user_type", vStr "customer"), ("phone", vStr "123"),
     ("image_url", vStr "uploads/user_20240101000000.png"),
     ("created_at", vTime 0), ("_id", vId "id24")] rfl
  exact ⟨h.1 "customer" rfl,
    h.2.1 "phone" "123" rfl (by decide) (by decide) (by decide) (by decide)
      (by decide) (by decide),
    h.2.2.1,
    h.2.2.2.2.2.1,
    (h.2.2.2.2.2.2.2 "customer" rfl (by decide)).1⟩

/-- A profile-picture update that passes the filename guards performs
exactly the `$set` of the `uploads/`-relative path and writes the file. -/
theorem update_profile_picture_success (users : List Document)
    (files : List String) (uid : String) (f : FileUpload) (ts ext : String)
    (hfn : f.filename ≠ "") (hal : allowed_file f.filename = true)
    (hext : rsplitExt (secure_filename f.filename) = some ext) :
    (update_profile_picture users files uid (some f) ts).1 =
      updateById users uid [("image_url",
        vStr ("uploads/" ++ ("profile_" ++ uid ++ "_" ++ ts ++ "." ++ strToLower ext)))] ∧
    (update_profile_picture users files uid (some f) ts).2.1 =
      ("profile_" ++ uid ++ "_" ++ ts ++ "." ++ strToLower ext) :: files := by
  unfold update_profile_picture
  dsimp only
  rw [if_neg hfn]
  simp only [hal, Bool.not_true]
  rw [if_neg (by simp)]
  rw [hext]
  exact ⟨rfl, rfl⟩

/-- Whenever `add_product` appends a record, the run was the success
branch, and the stored `image_url` is the static URL path of the upload. -/
theorem add_product_insert_image_url (products : List Document)
    (files : List String) (uid : String) (userType : Option String)
    (form : Form) (file : Option FileUpload) (penv : ProductEnv) (d : Document)
    (h : (add_product products files uid userType form file penv).1 =
      products ++ [d]) :
    ∃ f, file = some f ∧ allowed_file f.filename = true ∧
      getField d "image_url" =
        some (vStr ("/static/uploads/" ++
          (penv.timestamp ++ "_" ++ secure_filename f.filename))) := by
  unfold add_product at h
  by_cases hu : userType = some "farmer"
  · rw [if_neg (by simp [hu])] at h
    by_cases hreq : (["name", "category", "price", "quantity", "description"].all (fhas form)) = true
    · simp only [hreq, Bool.not_true] at h
      rw [if_neg (by simp)] at h
      rcases hpr : (fget form "price").bind pyFloat? with _ | pr <;>
      rcases hqt : (fget form "quantity").bind pyInt? with _ | qt <;>
        rw [hpr, hqt] at h
      all_goals try (exfalso; simp at h; done)
      rcases file with _ | f
      · exfalso; simp at h
      · dsimp only at h
        by_cases hfn : f.filename = ""
        · rw [if_pos hfn] at h
          exact absurd h (by simp)
        · rw [if_neg hfn] at h
          by_cases hal : allowed_file f.filename = true
          · rw [if_pos hal] at h
            simp only [List.append_cancel_left_eq, List.cons.injEq, and_true] at h
            refine ⟨f, rfl, hal, ?_⟩
            rw [← h]
            rw [getField_setField_ne _ _ _ _ (by decide)]
            rw [getField_setField_self]
            rfl
          · have hal' : allowed_file f.filename = false := by
              revert hal; cases allowed_file f.filename <;> simp
            rw [if_neg (by simp [hal'])] at h
            exact absurd h (by simp)
    · have hreq' : (["name", "category", "price", "quantity", "description"].all (fhas form)) = false := by
        revert hreq
        cases (["name", "category", "price", "quantity", "description"].all (fhas form)) <;> simp
      simp only [hreq', Bool.not_false] at h
      simp at h
  · rw [if_pos hu] at h
    exact absurd h (by simp)

/-- C5 (counterexample): a successful product upload stores an `image_url`
of `/static/uploads/<filename>` — the Flask static URL path — which is not
a store-relative path of the form `uploads/<filename>`, so the claim fails
for product images. -/
theorem add_product_image_url_not_relative :
    getField (((add_product [] [] "u" (some "farmer")
        [("name", "Apple"), ("category", "fruit"), ("price", "12.5"),
         ("quantity", "10"), ("description", "d")]
        (some ⟨"a.png"⟩)
        { timestamp := "20240101_000000", now := 0, newId := "pid" }).1).headD [])
      "image_url" = some (vStr "/static/uploads/20240101_000000_a.png") ∧
    strHasPrefix "uploads/" "/static/uploads/20240101_000000_a.png" = false :=
  ⟨rfl, by decide⟩

/-- C5 (amended): registration and profile-picture updates store
store-relative image paths of the form `uploads/<filename>`, but product
creation stores the static URL path `/static/uploads/<filename>`, which
does not have the `uploads/<filename>` shape. -/
theorem stored_image_path_shapes :
    (∀ (st : RegState) (form : Form) (file : Option FileUpload)
        (env : RegisterEnv) (u : Document),
      (register st form file env).1.users = st.users ++ [u] →
      ∃ fn, getField u "image_url" = some (vStr ("uploads/" ++ fn)) ∧
        strHasPrefix "uploads/" ("uploads/" ++ fn) = true) ∧
    (∀ (users : List Document) (files : List String) (uid : String)
        (f : FileUpload) (ts ext : String),
      f.filename ≠ "" → allowed_file f.filename = true →
      rsplitExt (secure_filename f.filename) = some ext →
      (update_profile_picture users files uid (some f) ts).1 =
        updateById users uid [("image_url", vStr ("uploads/" ++
          ("profile_" ++ uid ++ "_" ++ ts ++ "." ++ strToLower ext)))]) ∧
    (∀ (products : List Document) (files : List String) (uid : String)
        (userType : Option String) (form : Form) (file : Option FileUpload)
        (penv : ProductEnv) (d : Document),
      (add_product products files uid userType form file penv).1 =
        products ++ [d] →
      ∃ fn, getField d "image_url" = some (vStr ("/static/uploads/" ++ fn)) ∧
        strHasPrefix "uploads/" ("/static/uploads/" ++ fn) = false) := by
  refine ⟨?_, ?_, ?_⟩
  · intro st form file env u hins
    obtain ⟨f, pw, ut, ext, -, -, -, -, hu⟩ := register_insert st form file env u hins
    subst hu
    exact ⟨_, registerDoc_getField_image_url form env pw ut _, rfl⟩
  · intro users files uid f ts ext hfn hal hext
    exact (update_profile_picture_success users files uid f ts ext hfn hal hext).1
  · intro products files uid userType form file penv d hins
    obtain ⟨f, -, -, himg⟩ :=
      add_product_insert_image_url products files uid userType form file penv d hins
    exact ⟨_, himg, rfl⟩

theorem stored_image_path_shapes_witness :
    (∃ fn, getField
        [("name", vStr "n"), ("email", vStr "e@x"),
         ("password", vStr (generate_password_hash "s" "pw")),
         ("user_type", vStr "customer"),
         ("image_url", vStr "uploads/user_20240101000000.png"),
         ("created_at", vTime 0), ("_id", vId "id24")] "image_url" =
        some (vStr ("uploads/" ++ fn)) ∧
      strHasPrefix "uploads/" ("uploads/" ++ fn) = true) ∧
    ((update_profile_picture [] [] "u1" (some ⟨"pic.JPG"⟩) "t").1 =
      updateById [] "u1" [("image_url", vStr ("uploads/" ++
        ("profile_" ++ "u1" ++ "_" ++ "t" ++ "." ++ strToLower "JPG")))]) ∧
    (∃ fn, getField
        [("name", vStr "Apple"), ("category", vStr "fruit"),
         ("price", vNum 125 1), ("quantity", vInt 10),
         ("description", vStr "d"), ("farmer_id", vId "u"),
         ("created_at", vTime 0), ("is_organic", vBool false),
         ("image_url", vStr "/static/uploads/20240101_000000_a.png"),
         ("_id", vId "pid")] "image_url" =
        some (vStr ("/static/uploads/" ++ fn)) ∧
      strHasPrefix "uploads/" ("/static/uploads/" ++ fn) = false) := by
  refine ⟨?_, ?_, ?_⟩
  · exact (stored_image_path_shapes).1
      { users := [], files := [] }
      [("name", "n"), ("email", "e@x"), ("password", "pw"), ("user_type", "customer")]
      (some ⟨"a.png"⟩)
      { timestamp := "20240101000000", salt := "s", now := 0, newId := "id24" }
      [("name", vStr "n"), ("email", vStr "e@x"),
       ("password", vStr (generate_password_hash "s" "pw")),
       ("user_type", vStr "customer"),
       ("image_url", vStr "uploads/user_20240101000000.png"),
       ("created_at", vTime 0), ("_id", vId "id24")] rfl
  · exact (stored_image_path_shapes).2.1 [] [] "u1" ⟨"pic.JPG"⟩ "t" "JPG"
      (by decide) (by decide) rfl
  · exact (stored_image_path_shapes).2.2 [] [] "u" (some "farmer")
      [("name", "Apple"), ("category", "fruit"), ("price", "12.5"),
       ("quantity", "10"), ("description", "d")]
      (some ⟨"a.png"⟩)
      { timestamp := "20240101_000000", now := 0, newId := "pid" }
      [("name", vStr "Apple"), ("category", vStr "fruit"),
       ("price", vNum 125 1), ("quantity", vInt 10),
       ("description", vStr "d"), ("farmer_id", vId "u"),
       ("created_at", vTime 0), ("is_organic", vBool false),
       ("image_url", vStr "/static/uploads/20240101_000000_a.png"),
       ("_id", vId "pid")] rfl

theorem applySet_getField_frame (upd : List (String × BVal)) (d : Document)
    (k : String) (hk : ∀ p ∈ upd, p.1 ≠ k) :
    getField (applySet d upd) k = getField d k := by
  induction upd generalizing d with
  | nil => rfl
  | cons p rest ih =>
    have h1 : p.1 ≠ k := hk p (List.mem_cons_self p rest)
    have h2 : ∀ q ∈ rest, q.1 ≠ k := fun q hq => hk q (List.mem_cons_of_mem p hq)
    calc getField (applySet (setField d p.1 p.2) rest) k
        = getField (setField d p.1 p.2) k := ih (setField d p.1 p.2) h2
      _ = getField d k := getField_setField_ne d p.1 k p.2 (fun e => h1 e.symm)

theorem keepTruthyLink_eq_some (key : String) (o : Option String) (k : String)
    (v : BVal) (h : keepTruthyLink (key, o) = some (k, v)) :
    ∃ s, v = vStr s ∧ s ≠ "" ∧ o = some s ∧ k = key := by
  rcases o with _ | s
  · simp [keepTruthyLink] at h
  · by_cases hs : s = ""
    · subst hs
      simp [keepTruthyLink] at h
    · have h' : (if s ≠ "" then some (key, vStr s) else none) = some (k, v) := h
      rw [if_pos hs] at h'
      injection h' with h2
      rw [Prod.mk.injEq] at h2
      exact ⟨s, h2.2.symm, hs, rfl, h2.1.symm⟩

theorem updateProfileData_not_mem (userType : Option String) (form : Form)
    (k : String) (hkl : k ≠ "location") (hnone : fget form k = none) :
    ∀ v, (k, v) ∉ updateProfileData userType form := by
  intro v hv
  simp only [updateProfileData] at hv
  rw [List.mem_filterMap] at hv
  obtain ⟨p, hp, hgp⟩ := hv
  rw [Option.map_eq_some'] at hgp
  obtain ⟨w, hw, hpw⟩ := hgp
  rw [Prod.mk.injEq] at hpw
  obtain ⟨hk, -⟩ := hpw
  by_cases hft : userType = some "farmer"
  · rw [if_pos hft] at hp
    simp only [List.mem_append, List.mem_cons, List.not_mem_nil, or_false] at hp
    rcases hp with (rfl | rfl | rfl | rfl) | (rfl | rfl) <;> simp_all
  · rw [if_neg hft] at hp
    simp only [List.mem_cons, List.not_mem_nil, or_false] at hp
    rcases hp with rfl | rfl | rfl | rfl <;> simp_all

/-- C1 (counterexample): a farmer submitting only `phone` to
`update_profile` has the stored `location` sub-document rebuilt with nulls
(it was non-null before), and a user submitting only `facebook` to
`update_social_links` has the stored `twitter` link dropped — fields absent
from the form do not remain unchanged, and sub-documents are overwritten
wholesale. -/
theorem profile_update_counterexample :
    getField (((update_profile
        [[("_id", vId "507f1f77bcf86cd799439011"), ("name", vStr "Alice"),
          ("user_type", vStr "farmer"),
          ("location", vDoc [("address", vStr "A1"), ("city", vStr "C"),
            ("state", vStr "S"), ("zipcode", vStr "Z")])]]
        "507f1f77bcf86cd799439011" (some "farmer")
        [("phone", "123")]).1).headD [])
      "location" = some (vDoc [("address", vNull), ("city", vNull),
        ("state", vNull), ("zipcode", vNull)]) ∧
    some (vDoc [("address", vNull), ("city", vNull),
        ("state", vNull), ("zipcode", vNull)]) ≠
      some (vDoc [("address", vStr "A1"), ("city", vStr "C"),
        ("state", vStr "S"), ("zipcode", vStr "Z")]) ∧
    getField (((update_social_links
        [[("_id", vId "507f1f77bcf86cd799439011"),
          ("social_links", vDoc [("facebook", vStr "f"), ("twitter", vStr "t")])]]
        "507f1f77bcf86cd799439011" [("facebook", "f2")]).1).headD [])
      "social_links" = some (vDoc [("facebook", vStr "f2")]) ∧
    getField [("facebook", vStr "f2")] "twitter" = none ∧
    getField [("facebook", vStr "f"), ("twitter", vStr "t")] "twitter" =
      some (vStr "t") := by
  refine ⟨rfl, by simp, rfl, rfl, rfl⟩

/-- C1 (amended): profile updates are partial only at the top level of the
record: a top-level field whose key is outside the built update mapping is
unchanged, and a key absent from the form (other than the farmer
`location`) never enters the mapping; but `update_social_links` `$set`s the
whole `social_links` sub-document to exactly the truthy submitted links,
and `update_profile` `$set`s exactly its mapping (for farmers including a
wholesale `location` sub-document, and with empty-string submissions
included). -/
theorem profile_update_amended_semantics :
    (∀ (userType : Option String) (form : Form) (d : Document) (k : String),
      (∀ p ∈ updateProfileData userType form, p.1 ≠ k) →
      getField (applySet d (updateProfileData userType form)) k = getField d k) ∧
    (∀ (userType : Option String) (form : Form) (k : String),
      k ≠ "location" → fget form k = none →
      ∀ v, (k, v) ∉ updateProfileData userType form) ∧
    (∀ (form : Form) (k : String) (v : BVal), (k, v) ∈ socialLinksData form →
      ∃ s, v = vStr s ∧ s ≠ "" ∧ fget form k = some s) ∧
    (∀ (users : List Document) (uid : String) (userType : Option String)
        (form : Form),
      (update_profile users uid userType form).1 =
        updateById users uid (updateProfileData userType form)) ∧
    (∀ (users : List Document) (uid : String) (form : Form),
      (update_social_links users uid form).1 =
        updateById users uid [("social_links", vDoc (socialLinksData form))]) ∧
    (∀ (form : Form) (d : Document),
      getField (applySet d [("social_links", vDoc (socialLinksData form))])
        "social_links" = some (vDoc (socialLinksData form))) := by
  refine ⟨?_, ?_, ?_, ?_, ?_, ?_⟩
  · intro userType form d k hk
    exact applySet_getField_frame (updateProfileData userType form) d k hk
  · intro userType form k hkl hnone
    exact updateProfileData_not_mem userType form k hkl hnone
  · intro form k v hv
    simp only [socialLinksData] at hv
    rw [List.mem_filterMap] at hv
    obtain ⟨p, hp, hgp⟩ := hv
    simp only [List.mem_cons, List.not_mem_nil, or_false] at hp
    rcases hp with rfl | rfl | rfl | rfl <;>
      obtain ⟨s, hvs, hs, ho, rfl⟩ := keepTruthyLink_eq_some _ _ _ _ hgp <;>
      exact ⟨s, hvs, hs, ho⟩
  · intro users uid userType form
    rfl
  · intro users uid form
    rfl
  · intro form d
    exact getField_setField_self d _ _

theorem profile_update_amended_semantics_witness :
    getField (applySet [("x", vStr "keep")]
      (updateProfileData none [("phone", "123")])) "x" = getField [("x", vStr "keep")] "x" ∧
    ("name", vNull) ∉ updateProfileData (some "farmer") [("phone", "123")] ∧
    (∃ s, (vStr "f2" : BVal) = vStr s ∧ s ≠ "" ∧
      fget [("facebook", "f2")] "facebook" = some s) ∧
    getField (applySet [("social_links", vDoc [("twitter", vStr "t")])]
        [("social_links", vDoc (socialLinksData [("facebook", "f2")]))])
      "social_links" = some (vDoc (socialLinksData [("facebook", "f2")])) := by
  refine ⟨?_, ?_, ?_, ?_⟩
  · exact (profile_update_amended_semantics).1 none [("phone", "123")]
      [("x", vStr "keep")] "x" (by decide)
  · exact (profile_update_amended_semantics).2.1 (some "farmer") [("phone", "123")]
      "name" (by decide) rfl vNull
  · exact (profile_update_amended_semantics).2.2.1 [("facebook", "f2")]
      "facebook" (vStr "f2") (by exact List.Mem.head _)
  · exact (profile_update_amended_semantics).2.2.2.2.2 [("facebook", "f2")]
      [("social_links", vDoc [("twitter", vStr "t")])]

/-- C9: the role-based default-image substitution can never happen with the
shipped configuration — `src/config.py` defines no `DEFAULT_IMAGES`, so for
an existing user whose record has no `image_url` the handler's read of
`app.config['DEFAULT_IMAGES']` raises `KeyError` into the broad `except`,
flashing "Failed to load profile. Please try again." and redirecting to the
dashboard instead of rendering the profile with a default image; when the
stored `image_url` is non-empty and its file exists on disk the profile
renders with the stored path unchanged, as the claim says. -/
theorem profile_default_image_keyerror :
    profile
      [[("_id", vId "507f1f77bcf86cd799439011"), ("name", vStr "Bob"),
        ("user_type", vStr "customer")]]
      [] "static" "507f1f77bcf86cd799439011" theConfig = profileException ∧
    profileException.out.flashes =
      [("Failed to load profile. Please try again.", "error")] ∧
    profileException.out.target = Target.redirectTo "dashboard" ∧
    profileException.shown = none ∧
    getField ((profile
      [[("_id", vId "507f1f77bcf86cd799439011"),
        ("user_type", vStr "customer"), ("image_url", vStr "uploads/x.png")]]
      ["static/uploads/x.png"] "static" "507f1f77bcf86cd799439011"
      theConfig).shown.getD []) "image_url" = some (vStr "uploads/x.png") ∧
    (profile
      [[("_id", vId "507f1f77bcf86cd799439011"),
        ("user_type", vStr "customer"), ("image_url", vStr "uploads/x.png")]]
      ["static/uploads/x.png"] "static" "507f1f77bcf86cd799439011"
      theConfig).out.target = Target.render "customers/profile.html" :=
  ⟨rfl, rfl, rfl, rfl, rfl, rfl⟩
